import Mathlib

/-!
Shallow embedding of `src/fetch_bc_date.py`: a pipeline that fetches OData
tables from Business Central for every (company, api) pair of a configured
cartesian product, stages each successful payload as a spreadsheet sheet,
and finally writes one workbook plus a machine-readable run summary.

External collaborators are modelled as explicit parameters:
the authenticated HTTP client is a function from URL to a fetch outcome,
pandas dataframes are a `columns`/`rows` record, and the success or failure
of the workbook write is a boolean input.  Logging is ignored (no claim is
about log output except the final status line, which `ProcessingResults.summary`
computes as a plain string).
-/

/-- Decoded JSON response bodies, as returned by `api.get(url)`. -/
inductive Json where
  | null : Json
  | bool : Bool → Json
  | num : Int → Json
  | str : String → Json
  | arr : List Json → Json
  | obj : List (String × Json) → Json

/-- `dict.get(k)` on a JSON object modelled as an association list. -/
def lookupKey (k : String) : List (String × Json) → Option Json
  | [] => none
  | (k2, v) :: rest => if k2 == k then some v else lookupKey k rest

/-- Python truthiness of a decoded JSON value (`not records` in `_to_dataframe`). -/
def Json.falsy : Json → Bool
  | .null => true
  | .bool b => !b
  | .num n => n == 0
  | .str s => s == ""
  | .arr xs => xs.isEmpty
  | .obj kvs => kvs.isEmpty

/-- Whether a JSON value is an object (a record usable by `from_records`). -/
def Json.isRecord : Json → Bool
  | .obj _ => true
  | _ => false

/-- The fields of a JSON object, empty for non-objects. -/
def Json.objFields : Json → List (String × Json)
  | .obj kvs => kvs
  | _ => []

/-- Lines 126-130 of `main`:
`records = payload.get('value') if isinstance(payload, dict) else None`
followed by `if records is None: records = payload if isinstance(payload, list) else []`.
Note `dict.get` returns Python `None` both when the key is absent and when the
key is bound to JSON null, so both cases fall through to the coercion, which
yields `[]` because a dict is not a list. -/
def normalizeRecords : Json → Json
  | .obj kvs =>
    match lookupKey "value" kvs with
    | some .null => .arr []
    | some v => v
    | none => .arr []
  | .arr xs => .arr xs
  | _ => .arr []

/-- A pandas DataFrame, reduced to what the pipeline observes: its column
labels and its data rows (`len(df)` is `rows.length`). -/
structure DataFrame where
  columns : List String
  rows : List (List (String × Json))

/-- `pd.DataFrame([...one "_no_rows" record...]).iloc[0:0]`: one placeholder
column, zero data rows (line 84). -/
def placeholderDF : DataFrame := { columns := ["_no_rows"], rows := [] }

/-- Append a column label if not already present (first-appearance order). -/
def insertNewCol (acc : List String) (k : String) : List String :=
  if acc.contains k then acc else acc ++ [k]

/-- Column labels of `pd.DataFrame.from_records`: union of the record keys in
order of first appearance. -/
def recordColumns (recs : List (List (String × Json))) : List String :=
  recs.foldl (fun acc r => r.foldl (fun acc2 kv => insertNewCol acc2 kv.1) acc) []

/-- Model of `pd.DataFrame.from_records` on a list of JSON records. -/
def fromRecords (recs : List (List (String × Json))) : DataFrame :=
  { columns := recordColumns recs, rows := recs }

/-- `_to_dataframe` (lines 79-85).  A falsy `records` gives the placeholder
frame; a truthy list of records gives `from_records`; `none` models the
exception pandas raises when handed a truthy value that is not a sequence of
records (that exception is caught by the per-pair catch-all in `main`). -/
def _to_dataframe (records : Json) : Option DataFrame :=
  if records.falsy then some placeholderDF
  else
    match records with
    | .arr xs => if xs.all Json.isRecord then some (fromRecords (xs.map Json.objFields)) else none
    | _ => none

/-- The characters Excel forbids in sheet names (line 64). -/
def invalidSheetChars : List Char := [':', '\\', '/', '?', '*', '[', ']']

/-- `_safe_sheet_name` (lines 62-66): drop every forbidden character, then
truncate to the first 31 characters when longer. -/
def _safe_sheet_name (name : String) : String :=
  let cleaned := String.mk (name.toList.filter (fun ch => !invalidSheetChars.contains ch))
  if cleaned.length > 31 then String.mk (cleaned.toList.take 31) else cleaned

/-- Python `str.rstrip('/')`: remove every trailing slash. -/
def rstripSlash (s : String) : String :=
  String.mk ((s.toList.reverse.dropWhile (fun c => c == '/')).reverse)

/-- The URL template of `_build_bc_url` (lines 75-76), after the base URL has
been resolved and rstripped. -/
def bcUrl (base ver tenant env company api_name : String) : String :=
  rstripSlash base ++ "/" ++ ver ++ "/" ++ tenant ++ "/" ++ env ++
    "/ODataV4/Company(\x27" ++ company ++ "\x27)/" ++ api_name

/-- The `global` section of the configuration; each key may be missing. -/
structure GlobalSection where
  api_base_url : Option String
  api_version : Option String
  tenant_id : Option String

/-- The `business-central` section of the configuration. -/
structure BCSection where
  environment_name : Option String
  companies : Option (List String)
  apis : Option (List String)

/-- The `script-behavior` section of the configuration. -/
structure ScriptBehavior where
  excel_output_filename : Option String

/-- The configuration object handed to `main` by `parse_args_and_load_config`.
The `_env_type` and `_org_id` keys are injected by the loader and always
present. -/
structure Config where
  business_central : Option BCSection
  script_behavior : Option ScriptBehavior
  globalSection : Option GlobalSection
  env_type : String
  org_id : String

/-- The exceptions `main` can let escape: `ConfigurationError` (wrapped
KeyError of lines 94-101), `HelpfulError` (empty lists, lines 103-108), a raw
`KeyError` from `_build_bc_url` (uncaught, line 121 is outside the try), and
`FileOperationError` (lines 162-163). -/
inductive RunError where
  | configurationError (key : String)
  | helpfulError (what : String)
  | keyError (key : String)
  | fileOperationError (filename : String)

/-- `_build_bc_url` (lines 69-76): hard-fail access to the three global keys,
then the fixed template. -/
def _build_bc_url (config : Config) (environment_name company api_name : String) :
    Except RunError String :=
  match config.globalSection with
  | none => .error (.keyError "global")
  | some g =>
    match g.api_base_url with
    | none => .error (.keyError "api-base-url")
    | some base =>
      match g.api_version with
      | none => .error (.keyError "api-version")
      | some ver =>
        match g.tenant_id with
        | none => .error (.keyError "tenant-id")
        | some tenant => .ok (bcUrl base ver tenant environment_name company api_name)

/-- The four per-pair failure classes of the except clauses (lines 137-151). -/
inductive FailKind where
  | authFailed
  | timeout
  | apiError
  | unexpected

/-- The reason category appended to the failed entry for each failure class. -/
def FailKind.reason : FailKind → String
  | .authFailed => "auth failed"
  | .timeout => "timeout"
  | .apiError => "api error"
  | .unexpected => "unexpected error"

/-- Outcome of one `api.get(url)` call: a decoded payload, or one of the
typed exceptions (`ApiAuthenticationError`, `ApiTimeoutError`, `ApiError`,
anything else). -/
inductive FetchOutcome where
  | ok (payload : Json)
  | err (kind : FailKind)

/-- The external authenticated REST client: one blocking `get(url)` per pair. -/
def Client : Type := String → FetchOutcome

/-- `ProcessingResults` (lines 42-48). -/
structure ProcessingResults where
  created : List String
  updated : List String
  failed : List String
  expected_errors : Nat

/-- A fresh `ProcessingResults()`. -/
def emptyResults : ProcessingResults :=
  { created := [], updated := [], failed := [], expected_errors := 0 }

/-- `ProcessingResults.summary` (lines 50-59). -/
def ProcessingResults.summary (r : ProcessingResults) : String :=
  if !r.failed.isEmpty then
    "❌ Completed with " ++ toString r.failed.length ++ " failures: " ++
      toString r.created.length ++ " created, " ++ toString r.updated.length ++
      " updated, " ++ toString r.failed.length ++ " failed"
  else
    let expected_note :=
      if r.expected_errors > 0 then
        " (" ++ toString r.expected_errors ++ " handled expected duplicates)"
      else ""
    "✅ All " ++ toString (r.created.length + r.updated.length) ++
      " operations successful: " ++ toString r.created.length ++ " created, " ++
      toString r.updated.length ++ " updated" ++ expected_note

/-- The label recorded for a pair in both result lists (lines 135, 140, 144, 148, 151). -/
def pairLabel (company api_name : String) : String :=
  "BusinessCentral/" ++ company ++ "/" ++ api_name

/-- The mutable state of the fetch loop: the staged sheets (insertion-ordered,
as a Python dict) and the accumulated results. -/
structure LoopState where
  sheets : List (String × DataFrame)
  results : ProcessingResults

/-- Python dict assignment `sheets[sheet_name] = df`: overwrite in place when
the key exists, else append. -/
def insertSheet (sheets : List (String × DataFrame)) (name : String) (df : DataFrame) :
    List (String × DataFrame) :=
  if sheets.any (fun p => p.1 == name) then
    sheets.map (fun p => if p.1 == name then (name, df) else p)
  else sheets ++ [(name, df)]

/-- The body of the per-pair try/except block (lines 123-151), given the
already-built URL.  A client exception lands in the matching except clause; a
payload whose records `_to_dataframe` cannot frame lands in the catch-all. -/
def stepWithUrl (client : Client) (url : String) (st : LoopState)
    (company api_name : String) : LoopState :=
  match client url with
  | .ok payload =>
    match _to_dataframe (normalizeRecords payload) with
    | some df =>
      { sheets := insertSheet st.sheets (_safe_sheet_name (company ++ "__" ++ api_name)) df,
        results := { st.results with
          created := st.results.created ++ [pairLabel company api_name] } }
    | none =>
      { st with results := { st.results with
          failed := st.results.failed ++ [pairLabel company api_name ++ ": unexpected error"] } }
  | .err k =>
    { st with results := { st.results with
        failed := st.results.failed ++ [pairLabel company api_name ++ ": " ++ k.reason] } }

/-- One iteration of the inner loop (lines 120-151): build the URL (outside
the try, so a KeyError aborts the whole run), then run the guarded body. -/
def processPair (client : Client) (config : Config) (environment_name : String)
    (st : LoopState) (company api_name : String) : Except RunError LoopState :=
  match _build_bc_url config environment_name company api_name with
  | .error e => .error e
  | .ok url => .ok (stepWithUrl client url st company api_name)

/-- The nested fetch loop (lines 118-151): outer loop over companies, inner
loop over apis, threading the staged sheets and the results. -/
def fetchLoop (client : Client) (config : Config) (environment_name : String)
    (companies apis : List String) : Except RunError LoopState :=
  List.foldlM
    (fun st company =>
      List.foldlM
        (fun st2 api_name => processPair client config environment_name st2 company api_name)
        st apis)
    { sheets := [], results := emptyResults } companies

/-- The cartesian product of companies and apis in loop order. -/
def pairsOf (companies apis : List String) : List (String × String) :=
  companies.flatMap (fun c => apis.map (fun a => (c, a)))

/-- The per-pair body with the URL inlined, as a pure step over the product. -/
def pureStep (client : Client) (base ver tenant env : String) (st : LoopState)
    (p : String × String) : LoopState :=
  stepWithUrl client (bcUrl base ver tenant env p.1 p.2) st p.1 p.2

/-- The fetch loop as a pure fold over the cartesian product, valid whenever
the three global keys are present. -/
def pureLoop (client : Client) (base ver tenant env : String)
    (companies apis : List String) : LoopState :=
  (pairsOf companies apis).foldl (pureStep client base ver tenant env)
    { sheets := [], results := emptyResults }

/-- Whether a pair reaches the success path (payload decoded and framed). -/
def stepSucceeds (client : Client) (base ver tenant env : String)
    (p : String × String) : Bool :=
  match client (bcUrl base ver tenant env p.1 p.2) with
  | .ok payload => (_to_dataframe (normalizeRecords payload)).isSome
  | .err _ => false

/-- The failed-list entry a failing pair produces. -/
def failEntryOf (client : Client) (base ver tenant env : String)
    (p : String × String) : String :=
  match client (bcUrl base ver tenant env p.1 p.2) with
  | .ok _ => pairLabel p.1 p.2 ++ ": unexpected error"
  | .err k => pairLabel p.1 p.2 ++ ": " ++ k.reason

/-- The sheet identifier a successful pair stages its frame under (line 133). -/
def sheetNameOf (p : String × String) : String :=
  _safe_sheet_name (p.1 ++ "__" ++ p.2)

/-- Insert a sheet key if new (the key set evolution of `insertSheet`). -/
def insertKey (ks : List String) (k : String) : List String :=
  if ks.contains k then ks else ks ++ [k]

/-- How many names in the list collide with an earlier name (or with `seen`):
the number of staged sheets lost to silent overwrites. -/
def dupCount (seen : List String) : List String → Nat
  | [] => 0
  | n :: rest => (if seen.contains n then 1 else 0) + dupCount (insertKey seen n) rest

/-- The machine-readable summary record (lines 167-177). -/
structure SummaryRecord where
  timestamp : String
  org : String
  env : String
  environment_name : String
  companies : List String
  apis : List String
  excel_file : String
  created : List String
  failed : List String

/-- Everything a completed run produces: the staged sheets written to the
workbook, the result aggregate, the persisted summary record and its filename,
and the final logged status line. -/
structure RunOutput where
  sheets : List (String × DataFrame)
  results : ProcessingResults
  summaryRecord : SummaryRecord
  summaryFilename : String
  statusLine : String

/-- `main` (lines 88-181).  `client` is the external REST client, `writeOk`
tells whether the workbook write (an external pandas/openpyxl operation)
succeeds, and `ts` is the UTC timestamp the data handler returns. -/
def main' (config : Config) (client : Client) (writeOk : Bool) (ts : String) :
    Except RunError RunOutput :=
  match config.business_central with
  | none => .error (.configurationError "business-central")
  | some bc =>
    match bc.environment_name with
    | none => .error (.configurationError "environment-name")
    | some environment_name =>
      match bc.companies with
      | none => .error (.configurationError "companies")
      | some companies =>
        match bc.apis with
        | none => .error (.configurationError "apis")
        | some apis =>
          match config.script_behavior with
          | none => .error (.configurationError "script-behavior")
          | some sb =>
            match sb.excel_output_filename with
            | none => .error (.configurationError "excel-output-filename")
            | some excel_filename =>
              if companies.isEmpty || apis.isEmpty then
                .error (.helpfulError "No companies or APIs defined.")
              else
                match fetchLoop client config environment_name companies apis with
                | .error e => .error e
                | .ok st =>
                  if writeOk then
                    .ok { sheets := st.sheets
                          results := st.results
                          summaryRecord :=
                            { timestamp := ts
                              org := config.org_id
                              env := config.env_type
                              environment_name := environment_name
                              companies := companies
                              apis := apis
                              excel_file := excel_filename
                              created := st.results.created
                              failed := st.results.failed }
                          summaryFilename := "bc-fetch-summary_" ++ ts ++ ".json"
                          statusLine := st.results.summary }
                  else .error (.fileOperationError excel_filename)

/-- Whether a run error is a configuration error in the sense of the error
taxonomy: a wrapped missing key or the empty-lists `HelpfulError`. -/
def RunError.isConfigError : RunError → Bool
  | .configurationError _ => true
  | .helpfulError _ => true
  | _ => false

/-- The configurations rejected by the extraction phase (lines 94-108): a
missing `business-central` section or key, a missing `script-behavior`
section or key, or an empty companies or apis list. -/
def configRejected (config : Config) : Bool :=
  match config.business_central with
  | none => true
  | some bc =>
    match bc.environment_name, bc.companies, bc.apis with
    | some _, some cos, some aps =>
      match config.script_behavior with
      | none => true
      | some sb =>
        match sb.excel_output_filename with
        | none => true
        | some _ => cos.isEmpty || aps.isEmpty
    | _, _, _ => true

/-- A fully-populated configuration, for concrete runs. -/
def mkConfig (env : String) (companies apis : List String)
    (fname base ver tenant : String) : Config :=
  { business_central :=
      some { environment_name := some env, companies := some companies, apis := some apis }
    script_behavior := some { excel_output_filename := some fname }
    globalSection := some { api_base_url := some base, api_version := some ver, tenant_id := some tenant }
    env_type := "test"
    org_id := "org" }

/-- A client whose every call times out. -/
def clientTimeoutW : Client := fun _u => FetchOutcome.err FailKind.timeout

/-- A client that always returns `{"value": [{"id": 1}, {"id": 2}]}`. -/
def clientTwoRows : Client := fun _u =>
  FetchOutcome.ok (Json.obj [("value",
    Json.arr [Json.obj [("id", Json.num 1)], Json.obj [("id", Json.num 2)]])])

/-- A client that always returns `{"value": [{"id": 1}]}`. -/
def clientOneRow : Client := fun _u =>
  FetchOutcome.ok (Json.obj [("value", Json.arr [Json.obj [("id", Json.num 1)]])])

/-- A client that succeeds for the pair (A, X) and raises `ApiError` otherwise. -/
def clientMixed : Client := fun url =>
  if url == bcUrl "b" "v" "t" "E" "A" "X" then
    FetchOutcome.ok (Json.obj [("value", Json.arr [Json.obj [("id", Json.num 1)]])])
  else FetchOutcome.err FailKind.apiError

/-- The configuration of the worked spec example. -/
def cfgExample : Config := mkConfig "TestSE" ["TXO"] ["IntercompanyPartner"]
  "bc_config_tables.xlsx" "https://api.businesscentral.dynamics.com/v2.0" "v2.0" "tenant-id"

/-- A one-pair configuration. -/
def cfgOnePair : Config := mkConfig "E" ["A"] ["X"] "o.xlsx" "b" "v" "t"

/-- A two-pair configuration. -/
def cfgTwoPairs : Config := mkConfig "E" ["A", "B"] ["X"] "o.xlsx" "b" "v" "t"

/-- Two companies whose cleaned names collide after stripping: both `A?__X`
and `A*__X` clean to `A__X`. -/
def cfgCollide : Config := mkConfig "E" ["A?", "A*"] ["X"] "o.xlsx" "b" "v" "t"

/-- `_safe_sheet_name` always equals: strip the forbidden characters, then
take the first 31 characters (the no-truncation branch is the identity). -/
theorem safe_sheet_name_eq (s : String) :
    _safe_sheet_name s =
      String.mk ((s.toList.filter (fun ch => !invalidSheetChars.contains ch)).take 31) := by
  unfold _safe_sheet_name
  by_cases h :
      (String.mk (s.toList.filter (fun ch => !invalidSheetChars.contains ch))).length > 31
  · rw [if_pos h]
    rfl
  · rw [if_neg h]
    have hlen : (s.toList.filter (fun ch => !invalidSheetChars.contains ch)).length ≤ 31 :=
      Nat.le_of_not_lt h
    rw [List.take_of_length_le hlen]

/-- The head of `dropWhile p` never satisfies `p`. -/
theorem dropWhile_head_false (p : Char → Bool) (l : List Char) (c : Char)
    (h : (l.dropWhile p).head? = some c) : p c = false := by
  induction l with
  | nil => simp [List.dropWhile] at h
  | cons a as ih =>
    rw [List.dropWhile_cons] at h
    by_cases hp : p a
    · rw [if_pos hp] at h
      exact ih h
    · rw [if_neg hp] at h
      simp only [List.head?_cons, Option.some.injEq] at h
      rw [← h]
      exact Bool.eq_false_iff.mpr hp

/-- `rstripSlash` splits the input into its result and a run of slashes. -/
theorem rstripSlash_decomp (s : String) :
    ∃ k, s.toList = (rstripSlash s).toList ++ List.replicate k '/' := by
  refine ⟨(s.toList.reverse.takeWhile (fun c => c == '/')).length, ?_⟩
  have hsplit : s.toList.reverse.takeWhile (fun c => c == '/') ++
      s.toList.reverse.dropWhile (fun c => c == '/') = s.toList.reverse :=
    List.takeWhile_append_dropWhile _ _
  have hflip : s.toList =
      (s.toList.reverse.dropWhile (fun c => c == '/')).reverse ++
        (s.toList.reverse.takeWhile (fun c => c == '/')).reverse := by
    conv_lhs => rw [← List.reverse_reverse s.toList, ← hsplit]
    rw [List.reverse_append]
  conv_lhs => rw [hflip]
  congr 1
  have hall : ∀ b ∈ s.toList.reverse.takeWhile (fun c => c == '/'), b = '/' := by
    intro b hb
    have := List.mem_takeWhile_imp hb
    simpa using this
  have hrep : s.toList.reverse.takeWhile (fun c => c == '/') =
      List.replicate (s.toList.reverse.takeWhile (fun c => c == '/')).length '/' :=
    List.eq_replicate_length.mpr hall
  conv_lhs => rw [hrep]
  rw [List.reverse_replicate]

/-- The result of `rstripSlash` does not end in a slash. -/
theorem rstripSlash_no_trailing (s : String) (c : Char)
    (h : (rstripSlash s).toList.getLast? = some c) : c ≠ '/' := by
  have h2 : (s.toList.reverse.dropWhile (fun x => x == '/')).head? = some c := by
    rw [← List.getLast?_reverse]
    exact h
  have h3 := dropWhile_head_false _ _ _ h2
  simpa using h3

/-! ## Claims C3, C4, C6, C7 -/

/-- C3: for every input string, `_safe_sheet_name` returns the string obtained
by removing every occurrence of the characters `: \ / ? * [ ]` and keeping the
first 31 characters; hence its output is at most 31 characters long, contains
no forbidden character, and is empty when the input is all forbidden
characters. -/
theorem claim3_safe_sheet_name_spec (s : String) :
    _safe_sheet_name s =
      String.mk ((s.toList.filter (fun ch => !invalidSheetChars.contains ch)).take 31)
    ∧ (_safe_sheet_name s).length ≤ 31
    ∧ (∀ c ∈ (_safe_sheet_name s).toList, !invalidSheetChars.contains c)
    ∧ ((∀ c ∈ s.toList, invalidSheetChars.contains c) → _safe_sheet_name s = "") := by
  refine ⟨safe_sheet_name_eq s, ?_, ?_, ?_⟩
  · rw [safe_sheet_name_eq]
    exact List.length_take_le 31 _
  · intro c hc
    rw [safe_sheet_name_eq] at hc
    have hc2 : c ∈ (s.toList.filter (fun ch => !invalidSheetChars.contains ch)).take 31 := hc
    have hc3 : c ∈ s.toList.filter (fun ch => !invalidSheetChars.contains ch) :=
      List.mem_of_mem_take hc2
    have hc4 := List.of_mem_filter hc3
    simpa using hc4
  · intro hall
    rw [safe_sheet_name_eq]
    have hnil : s.toList.filter (fun ch => !invalidSheetChars.contains ch) = [] := by
      rw [List.filter_eq_nil_iff]
      intro a ha
      simpa using hall a ha
    rw [hnil]
    rfl

/-- Witness for C3 at a concrete all-forbidden input. -/
theorem claim3_safe_sheet_name_spec_witness : _safe_sheet_name ":\\/?*[]" = "" :=
  (claim3_safe_sheet_name_spec ":\\/?*[]").2.2.2 (by decide)

/-- C6: sheet-name derivation is idempotent. -/
theorem claim6_sheet_name_idempotent (s : String) :
    _safe_sheet_name (_safe_sheet_name s) = _safe_sheet_name s := by
  rw [safe_sheet_name_eq (_safe_sheet_name s), safe_sheet_name_eq s]
  show String.mk ((((s.toList.filter (fun ch => !invalidSheetChars.contains ch)).take 31).filter
      (fun ch => !invalidSheetChars.contains ch)).take 31) = _
  have hfix : (((s.toList.filter (fun ch => !invalidSheetChars.contains ch)).take 31).filter
      (fun ch => !invalidSheetChars.contains ch)) =
      (s.toList.filter (fun ch => !invalidSheetChars.contains ch)).take 31 := by
    apply List.filter_eq_self.mpr
    intro a ha
    have ha2 : a ∈ s.toList.filter (fun ch => !invalidSheetChars.contains ch) :=
      List.mem_of_mem_take ha
    have ha3 := List.of_mem_filter ha2
    simpa using ha3
  rw [hfix, List.take_take]
  norm_num

/-- C7: the endpoint resolver returns exactly
`{base}/{version}/{tenant}/{environment}/ODataV4/Company('{company}')/{resource}`
with every trailing slash of the base URL stripped before composition. -/
theorem claim7_build_url_spec (bcs : Option BCSection) (sbs : Option ScriptBehavior)
    (et oi base ver tenant envN company resource : String) :
    _build_bc_url ⟨bcs, sbs, some ⟨some base, some ver, some tenant⟩, et, oi⟩
        envN company resource
      = Except.ok (rstripSlash base ++ "/" ++ ver ++ "/" ++ tenant ++ "/" ++ envN ++
          "/ODataV4/Company(\x27" ++ company ++ "\x27)/" ++ resource)
    ∧ (∃ k, base.toList = (rstripSlash base).toList ++ List.replicate k '/')
    ∧ (∀ c, (rstripSlash base).toList.getLast? = some c → c ≠ '/') := by
  exact ⟨rfl, rstripSlash_decomp base, fun c h => rstripSlash_no_trailing base c h⟩

/-! ## Loop machinery lemmas -/

/-- String `==` is symmetric. -/
theorem string_beq_comm (a b : String) : (a == b) = (b == a) := by
  by_cases h : a = b
  · subst h; rfl
  · have h1 : (a == b) = false := by simpa using h
    have h2 : (b == a) = false := by simpa using fun e => h e.symm
    rw [h1, h2]

/-- Folding an `Except`-valued step that always returns `ok` is a pure fold. -/
theorem foldlM_except_ok {α σ ε : Type} (g : σ → α → σ) (l : List α) (init : σ) :
    List.foldlM (fun s x => (Except.ok (g s x) : Except ε σ)) init l
      = Except.ok (l.foldl g init) := by
  induction l generalizing init with
  | nil => rfl
  | cons x xs ih => exact ih (g init x)

/-- With the three global keys present, `processPair` is the pure step. -/
theorem processPair_ok (client : Client) (bcs : Option BCSection)
    (sbs : Option ScriptBehavior) (et oi base ver tenant envN : String)
    (st : LoopState) (c a : String) :
    processPair client ⟨bcs, sbs, some ⟨some base, some ver, some tenant⟩, et, oi⟩ envN st c a
      = Except.ok (pureStep client base ver tenant envN st (c, a)) := rfl

/-- With the three global keys present, the nested fetch loop is the pure fold
over the cartesian product. -/
theorem fetchLoop_ok_general (client : Client) (bcs : Option BCSection)
    (sbs : Option ScriptBehavior) (et oi base ver tenant envN : String)
    (companies apis : List String) (st : LoopState) :
    List.foldlM
        (fun st1 c => List.foldlM
          (fun st2 a =>
            processPair client ⟨bcs, sbs, some ⟨some base, some ver, some tenant⟩, et, oi⟩
              envN st2 c a)
          st1 apis)
        st companies
      = Except.ok ((pairsOf companies apis).foldl (pureStep client base ver tenant envN) st) := by
  induction companies generalizing st with
  | nil => rfl
  | cons c cs ih =>
    have hinner :
        List.foldlM
            (fun st2 a =>
              processPair client ⟨bcs, sbs, some ⟨some base, some ver, some tenant⟩, et, oi⟩
                envN st2 c a)
            st apis
          = Except.ok (apis.foldl (fun st2 a => pureStep client base ver tenant envN st2 (c, a)) st) :=
      foldlM_except_ok (fun st2 a => pureStep client base ver tenant envN st2 (c, a)) apis st
    have hcons :
        List.foldlM
            (fun st1 c' => List.foldlM
              (fun st2 a =>
                processPair client ⟨bcs, sbs, some ⟨some base, some ver, some tenant⟩, et, oi⟩
                  envN st2 c' a)
              st1 apis)
            st (c :: cs)
          = (List.foldlM
              (fun st2 a =>
                processPair client ⟨bcs, sbs, some ⟨some base, some ver, some tenant⟩, et, oi⟩
                  envN st2 c a)
              st apis) >>= fun s =>
              List.foldlM
                (fun st1 c' => List.foldlM
                  (fun st2 a =>
                    processPair client ⟨bcs, sbs, some ⟨some base, some ver, some tenant⟩, et, oi⟩
                      envN st2 c' a)
                  st1 apis)
                s cs := rfl
    rw [hcons, hinner]
    show List.foldlM _ (apis.foldl (fun st2 a => pureStep client base ver tenant envN st2 (c, a)) st) cs = _
    rw [ih]
    unfold pairsOf
    rw [List.flatMap_cons, List.foldl_append, List.foldl_map]

/-- With the global keys present, `fetchLoop` computes `pureLoop`. -/
theorem fetchLoop_ok (client : Client) (bcs : Option BCSection)
    (sbs : Option ScriptBehavior) (et oi base ver tenant envN : String)
    (companies apis : List String) :
    fetchLoop client ⟨bcs, sbs, some ⟨some base, some ver, some tenant⟩, et, oi⟩
        envN companies apis
      = Except.ok (pureLoop client base ver tenant envN companies apis) :=
  fetchLoop_ok_general client bcs sbs et oi base ver tenant envN companies apis
    { sheets := [], results := emptyResults }

/-- Overwriting an existing key leaves the key list unchanged. -/
theorem map_fst_overwrite (sheets : List (String × DataFrame)) (name : String) (df : DataFrame) :
    (sheets.map (fun p => if p.1 == name then (name, df) else p)).map Prod.fst
      = sheets.map Prod.fst := by
  induction sheets with
  | nil => rfl
  | cons q qs ih =>
    simp only [List.map_cons, ih]
    congr 1
    by_cases hq : q.1 == name
    · have hq2 : q.1 = name := by simpa using hq
      rw [if_pos hq, hq2]
    · rw [if_neg hq]

/-- `contains` over the key projection agrees with the `any` test of `insertSheet`. -/
theorem contains_map_fst (sheets : List (String × DataFrame)) (name : String) :
    (sheets.map Prod.fst).contains name = sheets.any (fun p => p.1 == name) := by
  induction sheets with
  | nil => rfl
  | cons q qs ih =>
    rw [List.map_cons, List.contains_cons, List.any_cons, ih, string_beq_comm]

/-- `insertSheet` acts on keys as `insertKey`. -/
theorem insertSheet_keys (sheets : List (String × DataFrame)) (name : String) (df : DataFrame) :
    (insertSheet sheets name df).map Prod.fst = insertKey (sheets.map Prod.fst) name := by
  unfold insertSheet insertKey
  rw [contains_map_fst]
  by_cases h : sheets.any (fun p => p.1 == name)
  · rw [if_pos h, if_pos h]
    exact map_fst_overwrite sheets name df
  · rw [if_neg h, if_neg h]
    simp

/-- A successful pair appends exactly its label to `created`, leaves `failed`
unchanged, and stages its sheet under its derived identifier. -/
theorem pureStep_of_succ (client : Client) (base ver tenant envN : String)
    (st : LoopState) (p : String × String)
    (h : stepSucceeds client base ver tenant envN p = true) :
    (pureStep client base ver tenant envN st p).results.created
        = st.results.created ++ [pairLabel p.1 p.2]
    ∧ (pureStep client base ver tenant envN st p).results.failed = st.results.failed
    ∧ ((pureStep client base ver tenant envN st p).sheets).map Prod.fst
        = insertKey (st.sheets.map Prod.fst) (sheetNameOf p) := by
  unfold pureStep stepWithUrl
  unfold stepSucceeds at h
  cases hc : client (bcUrl base ver tenant envN p.1 p.2) with
  | err k =>
    rw [hc] at h
    simp at h
  | ok payload =>
    simp only [hc] at h
    simp only [hc]
    cases hd : _to_dataframe (normalizeRecords payload) with
    | none =>
      rw [hd] at h
      simp at h
    | some df =>
      simp only [hd]
      exact ⟨by trivial, by trivial, insertSheet_keys st.sheets (sheetNameOf p) df⟩

/-- A failing pair appends exactly its fail entry to `failed`, leaves `created`
unchanged, and records no sheet at all. -/
theorem pureStep_of_fail (client : Client) (base ver tenant envN : String)
    (st : LoopState) (p : String × String)
    (h : stepSucceeds client base ver tenant envN p = false) :
    (pureStep client base ver tenant envN st p).results.created = st.results.created
    ∧ (pureStep client base ver tenant envN st p).results.failed
        = st.results.failed ++ [failEntryOf client base ver tenant envN p]
    ∧ (pureStep client base ver tenant envN st p).sheets = st.sheets := by
  unfold pureStep stepWithUrl
  unfold stepSucceeds at h
  unfold failEntryOf
  cases hc : client (bcUrl base ver tenant envN p.1 p.2) with
  | err k =>
    simp only [hc]
    exact ⟨by trivial, by trivial, by trivial⟩
  | ok payload =>
    simp only [hc] at h
    simp only [hc]
    cases hd : _to_dataframe (normalizeRecords payload) with
    | none =>
      simp only [hd]
      exact ⟨by trivial, by trivial, by trivial⟩
    | some df =>
      rw [hd] at h
      simp at h

/-- The fold over any pair list: `created` collects the labels of the
succeeding pairs in order, `failed` collects the fail entries of the failing
pairs in order, and the staged sheet keys are the derived names of the
succeeding pairs inserted in order. -/
theorem foldl_pureStep_spec (client : Client) (base ver tenant envN : String)
    (ps : List (String × String)) (st : LoopState) :
    ((ps.foldl (pureStep client base ver tenant envN) st).results.created
        = st.results.created
          ++ (ps.filter (stepSucceeds client base ver tenant envN)).map
              (fun p => pairLabel p.1 p.2))
    ∧ ((ps.foldl (pureStep client base ver tenant envN) st).results.failed
        = st.results.failed
          ++ (ps.filter (fun p => !stepSucceeds client base ver tenant envN p)).map
              (failEntryOf client base ver tenant envN))
    ∧ (((ps.foldl (pureStep client base ver tenant envN) st).sheets).map Prod.fst
        = ((ps.filter (stepSucceeds client base ver tenant envN)).map sheetNameOf).foldl
            insertKey (st.sheets.map Prod.fst)) := by
  induction ps generalizing st with
  | nil => exact ⟨by simp, by simp, rfl⟩
  | cons p ps ih =>
    rw [List.foldl_cons]
    obtain ⟨ih1, ih2, ih3⟩ := ih (pureStep client base ver tenant envN st p)
    by_cases hp : stepSucceeds client base ver tenant envN p
    · obtain ⟨h1, h2, h3⟩ := pureStep_of_succ client base ver tenant envN st p hp
      refine ⟨?_, ?_, ?_⟩
      · rw [ih1, h1, List.filter_cons, if_pos hp, List.map_cons]
        simp [List.append_assoc]
      · rw [ih2, h2, List.filter_cons]
        simp [hp]
      · rw [ih3, h3, List.filter_cons, if_pos hp, List.map_cons, List.foldl_cons]
    · have hp' : stepSucceeds client base ver tenant envN p = false := by
        simpa using hp
      obtain ⟨h1, h2, h3⟩ := pureStep_of_fail client base ver tenant envN st p hp'
      refine ⟨?_, ?_, ?_⟩
      · rw [ih1, h1, List.filter_cons, if_neg (by simp [hp'])]
      · rw [ih2, h2, List.filter_cons]
        simp only [hp', Bool.not_false, if_pos]
        rw [List.map_cons]
        simp [List.append_assoc]
      · rw [ih3, List.filter_cons, if_neg (by simp [hp']), h3]

/-- Inserting a run of names: final size plus collisions equals initial size
plus insertions. -/
theorem foldl_insertKey_length (names : List String) (ks : List String) :
    (names.foldl insertKey ks).length + dupCount ks names = ks.length + names.length := by
  induction names generalizing ks with
  | nil => simp [dupCount]
  | cons n rest ih =>
    rw [List.foldl_cons]
    have hdup : dupCount ks (n :: rest)
        = (if ks.contains n then 1 else 0) + dupCount (insertKey ks n) rest := rfl
    rw [hdup]
    have hlen : (insertKey ks n).length
        = if ks.contains n then ks.length else ks.length + 1 := by
      unfold insertKey
      by_cases h : ks.contains n
      · rw [if_pos h, if_pos h]
      · rw [if_neg h, if_neg h, List.length_append, List.length_singleton]
    have hih := ih (insertKey ks n)
    by_cases h : ks.contains n
    · rw [if_pos h] at hlen ⊢
      simp only [List.length_cons]
      omega
    · rw [if_neg h] at hlen ⊢
      simp only [List.length_cons]
      omega

/-- The cartesian product has `|companies| * |apis|` pairs. -/
theorem pairsOf_length (companies apis : List String) :
    (pairsOf companies apis).length = companies.length * apis.length := by
  induction companies with
  | nil => simp [pairsOf]
  | cons c cs ih =>
    unfold pairsOf at ih ⊢
    rw [List.flatMap_cons, List.length_append, List.length_map, ih, List.length_cons,
      Nat.succ_mul]
    omega

/-- Every configured pair is in the product. -/
theorem mem_pairsOf {companies apis : List String} {c a : String}
    (hc : c ∈ companies) (ha : a ∈ apis) : (c, a) ∈ pairsOf companies apis := by
  unfold pairsOf
  rw [List.mem_flatMap]
  exact ⟨c, hc, List.mem_map_of_mem _ ha⟩

/-! ## Main-run lemmas -/

/-- With a fully-populated configuration, non-empty lists and a successful
workbook write, `main'` returns the run output computed by the pure loop. -/
theorem main_ok_eq (client : Client) (envN : String) (companies apis : List String)
    (fname base ver tenant et oi ts : String)
    (hne : (companies.isEmpty || apis.isEmpty) = false) :
    main' ⟨some ⟨some envN, some companies, some apis⟩, some ⟨some fname⟩,
           some ⟨some base, some ver, some tenant⟩, et, oi⟩ client true ts
      = Except.ok
          { sheets := (pureLoop client base ver tenant envN companies apis).sheets
            results := (pureLoop client base ver tenant envN companies apis).results
            summaryRecord :=
              { timestamp := ts, org := oi, env := et, environment_name := envN,
                companies := companies, apis := apis, excel_file := fname,
                created := (pureLoop client base ver tenant envN companies apis).results.created,
                failed := (pureLoop client base ver tenant envN companies apis).results.failed }
            summaryFilename := "bc-fetch-summary_" ++ ts ++ ".json"
            statusLine := (pureLoop client base ver tenant envN companies apis).results.summary } := by
  have hloop := fetchLoop_ok client (some ⟨some envN, some companies, some apis⟩)
    (some ⟨some fname⟩) et oi base ver tenant envN companies apis
  simp only [main', hne, hloop]
  simp

/-- With a fully-populated configuration and non-empty lists, a failing
workbook write makes the run end in a `FileOperationError`. -/
theorem main_write_fail_eq (client : Client) (envN : String) (companies apis : List String)
    (fname base ver tenant et oi ts : String)
    (hne : (companies.isEmpty || apis.isEmpty) = false) :
    main' ⟨some ⟨some envN, some companies, some apis⟩, some ⟨some fname⟩,
           some ⟨some base, some ver, some tenant⟩, et, oi⟩ client false ts
      = Except.error (RunError.fileOperationError fname) := by
  have hloop := fetchLoop_ok client (some ⟨some envN, some companies, some apis⟩)
    (some ⟨some fname⟩) et oi base ver tenant envN companies apis
  simp only [main', hne, hloop]
  simp

/-! ## Claims C1, C2 -/

/-- C1: for every fetch pair whose `get` raises a classified failure, the pair
is appended to the failed list with the matching reason category, no sheet is
recorded by that pair's processing, and every pair of the product still
reaches its own outcome (the outcome counts add up to the whole product). -/
theorem claim1_failure_isolation (client : Client) (envN : String)
    (companies apis : List String) (fname base ver tenant et oi ts : String)
    (hne : (companies.isEmpty || apis.isEmpty) = false)
    (c a : String) (hc : c ∈ companies) (ha : a ∈ apis) (k : FailKind)
    (hk : client (bcUrl base ver tenant envN c a) = FetchOutcome.err k) :
    ∃ out, main' ⟨some ⟨some envN, some companies, some apis⟩, some ⟨some fname⟩,
        some ⟨some base, some ver, some tenant⟩, et, oi⟩ client true ts = Except.ok out
      ∧ (pairLabel c a ++ ": " ++ k.reason) ∈ out.results.failed
      ∧ out.results.created.length + out.results.failed.length
          = companies.length * apis.length
      ∧ ∀ st, (stepWithUrl client (bcUrl base ver tenant envN c a) st c a).sheets
          = st.sheets := by
  obtain ⟨hcr, hfl, hsh⟩ := foldl_pureStep_spec client base ver tenant envN
    (pairsOf companies apis) { sheets := [], results := emptyResults }
  have hfail : stepSucceeds client base ver tenant envN (c, a) = false := by
    unfold stepSucceeds
    rw [hk]
  refine ⟨_, main_ok_eq client envN companies apis fname base ver tenant et oi ts hne,
    ?_, ?_, ?_⟩
  · show (pairLabel c a ++ ": " ++ k.reason)
      ∈ (pureLoop client base ver tenant envN companies apis).results.failed
    unfold pureLoop
    rw [hfl]
    have hmem : (c, a) ∈ pairsOf companies apis := mem_pairsOf hc ha
    have hmem2 : (c, a) ∈ (pairsOf companies apis).filter
        (fun p => !stepSucceeds client base ver tenant envN p) := by
      rw [List.mem_filter]
      exact ⟨hmem, by rw [hfail]; rfl⟩
    have hmap := List.mem_map_of_mem (failEntryOf client base ver tenant envN) hmem2
    have hentry : failEntryOf client base ver tenant envN (c, a)
        = pairLabel c a ++ ": " ++ k.reason := by
      unfold failEntryOf
      rw [hk]
    rw [hentry] at hmap
    exact List.mem_append_right _ hmap
  · show (pureLoop client base ver tenant envN companies apis).results.created.length
        + (pureLoop client base ver tenant envN companies apis).results.failed.length
      = companies.length * apis.length
    unfold pureLoop
    rw [hcr, hfl]
    simp only [emptyResults, List.nil_append, List.length_map]
    rw [← pairsOf_length companies apis]
    exact (List.length_eq_length_filter_add _).symm
  · intro st
    exact (pureStep_of_fail client base ver tenant envN st (c, a) hfail).2.2

/-- C1 witness: a one-pair run whose only call times out. -/
theorem claim1_failure_isolation_witness :
    ∃ out, main' cfgOnePair clientTimeoutW true "T" = Except.ok out
      ∧ (pairLabel "A" "X" ++ ": " ++ FailKind.timeout.reason) ∈ out.results.failed
      ∧ out.results.created.length + out.results.failed.length
          = (["A"] : List String).length * (["X"] : List String).length
      ∧ ∀ st, (stepWithUrl clientTimeoutW (bcUrl "b" "v" "t" "E" "A" "X") st "A" "X").sheets
          = st.sheets :=
  claim1_failure_isolation clientTimeoutW "E" ["A"] ["X"] "o.xlsx" "b" "v" "t" "test" "org"
    "T" rfl "A" "X" (by simp) (by simp) FailKind.timeout rfl

/-- C2: at run end the outcome lists are exactly the partition of the
cartesian product: `created` lists the labels of the succeeding pairs in
order, `failed` the entries of the failing pairs in order, and together they
count every pair exactly once. -/
theorem claim2_outcome_partition (client : Client) (envN : String)
    (companies apis : List String) (fname base ver tenant et oi ts : String)
    (hne : (companies.isEmpty || apis.isEmpty) = false) :
    ∃ out, main' ⟨some ⟨some envN, some companies, some apis⟩, some ⟨some fname⟩,
        some ⟨some base, some ver, some tenant⟩, et, oi⟩ client true ts = Except.ok out
      ∧ out.results.created
          = ((pairsOf companies apis).filter (stepSucceeds client base ver tenant envN)).map
              (fun p => pairLabel p.1 p.2)
      ∧ out.results.failed
          = ((pairsOf companies apis).filter
              (fun p => !stepSucceeds client base ver tenant envN p)).map
              (failEntryOf client base ver tenant envN)
      ∧ out.results.created.length + out.results.failed.length
          = (pairsOf companies apis).length := by
  obtain ⟨hcr, hfl, hsh⟩ := foldl_pureStep_spec client base ver tenant envN
    (pairsOf companies apis) { sheets := [], results := emptyResults }
  refine ⟨_, main_ok_eq client envN companies apis fname base ver tenant et oi ts hne,
    ?_, ?_, ?_⟩
  · show (pureLoop client base ver tenant envN companies apis).results.created = _
    unfold pureLoop
    rw [hcr]
    simp [emptyResults]
  · show (pureLoop client base ver tenant envN companies apis).results.failed = _
    unfold pureLoop
    rw [hfl]
    simp [emptyResults]
  · show (pureLoop client base ver tenant envN companies apis).results.created.length
        + (pureLoop client base ver tenant envN companies apis).results.failed.length = _
    unfold pureLoop
    rw [hcr, hfl]
    simp only [emptyResults, List.nil_append, List.length_map]
    exact (List.length_eq_length_filter_add _).symm

/-- C2 witness: a two-pair run where (A, X) succeeds and (B, X) fails. -/
theorem claim2_outcome_partition_witness :
    ∃ out, main' cfgTwoPairs clientMixed true "T" = Except.ok out
      ∧ out.results.created
          = ((pairsOf ["A", "B"] ["X"]).filter (stepSucceeds clientMixed "b" "v" "t" "E")).map
              (fun p => pairLabel p.1 p.2)
      ∧ out.results.failed
          = ((pairsOf ["A", "B"] ["X"]).filter
              (fun p => !stepSucceeds clientMixed "b" "v" "t" "E" p)).map
              (failEntryOf clientMixed "b" "v" "t" "E")
      ∧ out.results.created.length + out.results.failed.length
          = (pairsOf ["A", "B"] ["X"]).length :=
  claim2_outcome_partition clientMixed "E" ["A", "B"] ["X"] "o.xlsx" "b" "v" "t"
    "test" "org" "T" rfl

/-! ## Claim C5 -/

/-- C5 counterexample: with one configured pair whose fetch times out, the
product has 1 attempted pair and no sheet name ever collided with or overwrote
an earlier one (no sheet was staged at all), yet the workbook ends with 0
sheets — not `1 - 0` as the claim "attempted minus overwritten" requires.
Failed pairs also subtract from the sheet count. -/
theorem claim5_sheet_count_counterexample :
    Except.map
        (fun out => (out.sheets.length, out.results.created.length + out.results.failed.length))
        (main' cfgOnePair clientTimeoutW true "T")
      = Except.ok (0, 1)
    ∧ (pairsOf ["A"] ["X"]).length = 1
    ∧ dupCount []
        (((pairsOf ["A"] ["X"]).filter (stepSucceeds clientTimeoutW "b" "v" "t" "E")).map
          sheetNameOf) = 0
    ∧ (0 : Nat) ≠ 1 - 0 := by
  refine ⟨?_, rfl, rfl, by decide⟩
  rfl

/-- C5 amended: the number of sheets in the workbook equals the number of
pairs that succeeded, minus the number of succeeding pairs whose cleaned,
truncated sheet name collided with and overwrote an earlier succeeding pair's
identical identifier (stated additively to avoid truncated subtraction). -/
theorem claim5_sheet_count_amended (client : Client) (envN : String)
    (companies apis : List String) (fname base ver tenant et oi ts : String)
    (hne : (companies.isEmpty || apis.isEmpty) = false) :
    ∃ out, main' ⟨some ⟨some envN, some companies, some apis⟩, some ⟨some fname⟩,
        some ⟨some base, some ver, some tenant⟩, et, oi⟩ client true ts = Except.ok out
      ∧ out.sheets.length
          + dupCount []
              (((pairsOf companies apis).filter (stepSucceeds client base ver tenant envN)).map
                sheetNameOf)
          = ((pairsOf companies apis).filter (stepSucceeds client base ver tenant envN)).length := by
  obtain ⟨hcr, hfl, hsh⟩ := foldl_pureStep_spec client base ver tenant envN
    (pairsOf companies apis) { sheets := [], results := emptyResults }
  refine ⟨_, main_ok_eq client envN companies apis fname base ver tenant et oi ts hne, ?_⟩
  show (pureLoop client base ver tenant envN companies apis).sheets.length + _ = _
  have e1 : ((pureLoop client base ver tenant envN companies apis).sheets).map Prod.fst
      = (((pairsOf companies apis).filter (stepSucceeds client base ver tenant envN)).map
          sheetNameOf).foldl insertKey [] := by
    show ((List.foldl (pureStep client base ver tenant envN)
        { sheets := [], results := emptyResults } (pairsOf companies apis)).sheets).map Prod.fst
      = _
    rw [hsh]
    rfl
  have e2 : (((pureLoop client base ver tenant envN companies apis).sheets).map Prod.fst).length
      = ((((pairsOf companies apis).filter (stepSucceeds client base ver tenant envN)).map
          sheetNameOf).foldl insertKey []).length := congrArg List.length e1
  have e3 : (pureLoop client base ver tenant envN companies apis).sheets.length
      = (((pureLoop client base ver tenant envN companies apis).sheets).map Prod.fst).length :=
    (List.length_map _ _).symm
  have hkey := foldl_insertKey_length
    (((pairsOf companies apis).filter (stepSucceeds client base ver tenant envN)).map
      sheetNameOf) []
  have hnm : ((((pairsOf companies apis).filter
      (stepSucceeds client base ver tenant envN)).map sheetNameOf)).length
      = ((pairsOf companies apis).filter (stepSucceeds client base ver tenant envN)).length :=
    List.length_map _ _
  simp only [List.length_nil, Nat.zero_add] at hkey
  omega

/-- C5 amended witness: two distinct companies `A?` and `A*` both clean to the
sheet name `A__X`; both pairs succeed, one staged sheet overwrites the other,
so 1 sheet = 2 succeeded - 1 collision. -/
theorem claim5_sheet_count_amended_witness :
    ∃ out, main' cfgCollide clientOneRow true "T" = Except.ok out
      ∧ out.sheets.length
          + dupCount []
              (((pairsOf ["A?", "A*"] ["X"]).filter (stepSucceeds clientOneRow "b" "v" "t" "E")).map
                sheetNameOf)
          = ((pairsOf ["A?", "A*"] ["X"]).filter (stepSucceeds clientOneRow "b" "v" "t" "E")).length :=
  claim5_sheet_count_amended clientOneRow "E" ["A?", "A*"] ["X"] "o.xlsx" "b" "v" "t"
    "test" "org" "T" rfl

/-! ## Claims C8, C9, C10 -/

/-- C8: a missing required configuration key or an empty companies/apis list
makes the run fail with a configuration error before any network activity:
the result is the same for every client (so no request can have been issued),
it is an error, and the error is a configuration error; hence no pair is
fetched and neither workbook nor summary is produced. -/
theorem claim8_config_fail_fast (config : Config) (h : configRejected config = true)
    (client client' : Client) (w w' : Bool) (ts ts' : String) :
    main' config client w ts = main' config client' w' ts'
    ∧ ∃ e, main' config client w ts = Except.error e ∧ e.isConfigError = true := by
  obtain ⟨bcs, sbs, gs, et, oi⟩ := config
  cases bcs with
  | none => exact ⟨rfl, RunError.configurationError "business-central", rfl, rfl⟩
  | some bc =>
    obtain ⟨envO, cosO, apsO⟩ := bc
    cases envO with
    | none => exact ⟨rfl, RunError.configurationError "environment-name", rfl, rfl⟩
    | some envN =>
      cases cosO with
      | none => exact ⟨rfl, RunError.configurationError "companies", rfl, rfl⟩
      | some cos =>
        cases apsO with
        | none => exact ⟨rfl, RunError.configurationError "apis", rfl, rfl⟩
        | some aps =>
          cases sbs with
          | none => exact ⟨rfl, RunError.configurationError "script-behavior", rfl, rfl⟩
          | some sb =>
            obtain ⟨exO⟩ := sb
            cases exO with
            | none =>
              exact ⟨rfl, RunError.configurationError "excel-output-filename", rfl, rfl⟩
            | some fname =>
              have h2 : (cos.isEmpty || aps.isEmpty) = true := h
              constructor
              · simp [main', h2]
              · exact ⟨RunError.helpfulError "No companies or APIs defined.",
                  by simp [main', h2], rfl⟩

/-- C8 witness: an empty companies list is rejected, identically for two
different clients, write flags and timestamps. -/
theorem claim8_config_fail_fast_witness :
    main' (mkConfig "E" [] ["X"] "o.xlsx" "b" "v" "t") clientTimeoutW true "T"
      = main' (mkConfig "E" [] ["X"] "o.xlsx" "b" "v" "t") clientTwoRows false "U"
    ∧ ∃ e, main' (mkConfig "E" [] ["X"] "o.xlsx" "b" "v" "t") clientTimeoutW true "T"
        = Except.error e ∧ e.isConfigError = true :=
  claim8_config_fail_fast (mkConfig "E" [] ["X"] "o.xlsx" "b" "v" "t") rfl
    clientTimeoutW clientTwoRows true false "T" "U"

/-- C9: the worked example — companies `["TXO"]`, resources
`["IntercompanyPartner"]`, client returning `{"value": [{"id": 1}, {"id": 2}]}`
— produces exactly one sheet named `TXO__IntercompanyPartner` with 2 data
rows, one succeeded entry, zero failed entries, and the final status line
`✅ All 1 operations successful: 1 created, 0 updated`, which therefore
reports "All 1 operations successful" (shown by the explicit append
decomposition of the line around that phrase). -/
theorem claim9_example_run :
    ∃ out, main' cfgExample clientTwoRows true "T" = Except.ok out
      ∧ out.sheets.map Prod.fst = ["TXO__IntercompanyPartner"]
      ∧ out.sheets.map (fun (p : String × DataFrame) => p.2.rows.length) = [2]
      ∧ out.results.created = ["BusinessCentral/TXO/IntercompanyPartner"]
      ∧ out.results.failed = []
      ∧ out.statusLine = "✅ All 1 operations successful: 1 created, 0 updated"
      ∧ out.statusLine = "✅ " ++ "All 1 operations successful" ++ ": 1 created, 0 updated" := by
  refine ⟨_, main_ok_eq clientTwoRows "TestSE" ["TXO"] ["IntercompanyPartner"]
    "bc_config_tables.xlsx" "https://api.businesscentral.dynamics.com/v2.0" "v2.0"
    "tenant-id" "test" "org" "T" rfl, ?_, ?_, ?_, ?_, ?_, ?_⟩
  · rfl
  · rfl
  · rfl
  · rfl
  · rfl
  · rfl

/-- C10: if the workbook write raises, the run ends in a `FileOperationError`
and no summary record or status line is produced (the run yields no output at
all); if the write succeeds, the summary record and status line are produced
— for every client, including one for which every fetch pair failed. -/
theorem claim10_write_failure (client : Client) (envN : String)
    (companies apis : List String) (fname base ver tenant et oi ts : String)
    (hne : (companies.isEmpty || apis.isEmpty) = false) :
    main' ⟨some ⟨some envN, some companies, some apis⟩, some ⟨some fname⟩,
        some ⟨some base, some ver, some tenant⟩, et, oi⟩ client false ts
      = Except.error (RunError.fileOperationError fname)
    ∧ ∃ out, main' ⟨some ⟨some envN, some companies, some apis⟩, some ⟨some fname⟩,
          some ⟨some base, some ver, some tenant⟩, et, oi⟩ client true ts = Except.ok out
        ∧ out.summaryRecord.timestamp = ts
        ∧ out.summaryRecord.created = out.results.created
        ∧ out.summaryRecord.failed = out.results.failed
        ∧ out.summaryFilename = "bc-fetch-summary_" ++ ts ++ ".json"
        ∧ out.statusLine = out.results.summary := by
  refine ⟨main_write_fail_eq client envN companies apis fname base ver tenant et oi ts hne,
    _, main_ok_eq client envN companies apis fname base ver tenant et oi ts hne,
    rfl, rfl, rfl, rfl, rfl⟩

/-- C10 witness: a run whose only pair times out still writes the summary and
status line when the workbook write succeeds, and fails with a
`FileOperationError` when it does not. -/
theorem claim10_write_failure_witness :
    main' cfgOnePair clientTimeoutW false "T"
      = Except.error (RunError.fileOperationError "o.xlsx")
    ∧ ∃ out, main' cfgOnePair clientTimeoutW true "T" = Except.ok out
        ∧ out.summaryRecord.timestamp = "T"
        ∧ out.summaryRecord.created = out.results.created
        ∧ out.summaryRecord.failed = out.results.failed
        ∧ out.summaryFilename = "bc-fetch-summary_" ++ "T" ++ ".json"
        ∧ out.statusLine = out.results.summary :=
  claim10_write_failure clientTimeoutW "E" ["A"] ["X"] "o.xlsx" "b" "v" "t" "test" "org"
    "T" rfl
